import Mathlib

/-!
Shallow embedding of
`tensorflow/lite/delegates/gpu/cl/kernels/special/depthwise_conv_plus_1x1_conv.cc`:
the fused depthwise-conv + 1x1-conv GPU kernel synthesizer
(eligibility check, weight packing, kernel source generation, grid size),
together with theorems settling the specification claims about it.

Conventions of the embedding:
* shape dimensions, channel counts and bias lengths are `ℕ` (the C++ code
  uses nonnegative `int` sizes and iterates `for (int i = 0; i < n; ++i)`);
* strides, dilations and paddings are `ℤ` (the code negates paddings);
* scalar weight values are `ℚ` (the packing code only copies values and
  inserts the constant `0.0f`; no floating-point arithmetic is performed);
* the generated kernel source is modelled as the list of string chunks
  appended to the accumulator `c` (one list element per `c += ...`
  statement), the full text being their concatenation.
-/

namespace DwConvPlus1x1

/-- Modelled from the spec: `DivideRoundUp` from the external
`gpu/common/util.h` helper header (integer division rounding up),
"rounded up to the nearest multiple of 4" / channel-group counts. -/
def divideRoundUp (n d : ℕ) : ℕ := (n + d - 1) / d

/-- Modelled from the spec: `AlignByN` from the external
`gpu/common/util.h` helper header: rounds `value` up to the nearest
multiple of `n`. -/
def alignByN (value n : ℕ) : ℕ := divideRoundUp value n * n

/-- A spatial height/width pair (`HW`), as used for strides and dilations. -/
structure HW where
  h : ℤ
  w : ℤ

/-- 2D padding (`Padding2D`): prepended and appended extents. -/
structure Padding2D where
  prepended : HW
  appended : HW

/-- An `OHWI` weight-tensor shape: output channels, kernel height,
kernel width, input channels. -/
structure OHWI where
  o : ℕ
  h : ℕ
  w : ℕ
  i : ℕ

/-- Modelled from the spec: the tensor's own multi-dimensional-index to
linear-offset mapping (`Shape::LinearIndex`, an external collaborator),
row-major in the `O, H, W, I` axis order of the logical layouts
`[1, kh, kw, channels]` and `[out_channels, 1, 1, in_channels]`. -/
def OHWI.linearIndex (s : OHWI) (o h w i : ℕ) : ℕ :=
  ((o * s.h + h) * s.w + w) * s.i + i

/-- A weight tensor: an `OHWI` shape plus linear scalar storage. -/
structure Tensor where
  shape : OHWI
  data : ℕ → ℚ

/-- A bias tensor (`Linear` shape): length `v` plus linear storage. -/
structure LinearTensor where
  v : ℕ
  data : ℕ → ℚ

/-- `DepthwiseConvolution2DAttributes`: the fields this translation
unit reads. -/
structure DepthwiseConvolution2DAttributes where
  weights : Tensor
  bias : LinearTensor
  strides : HW
  dilations : HW
  padding : Padding2D

/-- `Convolution2DAttributes`: the fields this translation unit reads. -/
structure Convolution2DAttributes where
  weights : Tensor
  bias : LinearTensor
  strides : HW
  dilations : HW
  padding : Padding2D

/-- `CalculationsPrecision` (from the operation definition). -/
inductive CalculationsPrecision where
  | F32
  | F32_F16
  | F16
deriving DecidableEq, BEq

/-- `TensorStorageType` of a tensor descriptor (external enum); the
generator only distinguishes `BUFFER` / `IMAGE_BUFFER` from the rest. -/
inductive TensorStorageType where
  | UNKNOWN
  | BUFFER
  | IMAGE_BUFFER
  | TEXTURE_2D
  | TEXTURE_3D
  | TEXTURE_ARRAY
  | SINGLE_TEXTURE_2D
deriving DecidableEq, BEq

/-- The slice of `OperationDef` this translation unit reads: the
calculation precision, the storage type of `src_tensors[0]`, and whether
`dst_tensors[0]` has a `BATCH` axis. -/
structure OperationDef where
  precision : CalculationsPrecision
  srcStorageType : TensorStorageType
  dstHasBatch : Bool

/-- `IsDepthwiseConvPlus1x1ConvSupported` (lines 250-268): hard legality
constraints (`good_dw`, `good_conv`) and soft profitability heuristics
(`recommended_dw`, `recommended_conv`).  The `device` and `definition`
parameters of the C++ function are unused by its body and omitted. -/
def IsDepthwiseConvPlus1x1ConvSupported
    (dw_attr : DepthwiseConvolution2DAttributes)
    (conv_attr : Convolution2DAttributes) : Bool :=
  let dw_shape := dw_attr.weights.shape
  let conv_shape := conv_attr.weights.shape
  let good_dw : Bool := dw_shape.o == 1
  let good_conv : Bool :=
    conv_shape.w == 1 && conv_shape.h == 1 && conv_attr.dilations.w == 1 &&
    conv_attr.dilations.h == 1 && conv_attr.strides.w == 1 &&
    conv_attr.strides.h == 1 && conv_attr.padding.prepended.w == 0 &&
    conv_attr.padding.prepended.h == 0 && conv_attr.padding.appended.w == 0 &&
    conv_attr.padding.appended.h == 0
  let recommended_dw : Bool :=
    dw_shape.i ≤ 16 && dw_shape.i * dw_shape.h * dw_shape.w ≤ 3 * 3 * 16
  let recommended_conv : Bool :=
    conv_shape.o ≤ 32 && conv_shape.i * conv_shape.o ≤ 16 * 32
  good_dw && good_conv && recommended_dw && recommended_conv

/-- The slice of the destination tensor state read by `GetGridSize`:
`Width()`, `Height()`, `Batch()`. -/
structure DstTensorDims where
  width : ℕ
  height : ℕ
  batch : ℕ

/-- `DepthwiseConvPlus1x1Conv::GetGridSize` (lines 244-248):
`grid_x = dst->Width() * dst->Batch()`, `grid_y = dst->Height()`,
grid z fixed at 1. -/
def GetGridSize (dst : DstTensorDims) : ℕ × ℕ × ℕ :=
  let grid_x := dst.width * dst.batch
  let grid_y := dst.height
  (grid_x, grid_y, 1)

/-- The scalar `args_.AddInt` registrations performed by `GenerateCode`
(lines 154-159), in registration order: name and integer value. -/
def generateCodeScalarArgs (dw_attr : DepthwiseConvolution2DAttributes) :
    List (String × ℤ) :=
  [("stride_x", dw_attr.strides.w),
   ("padding_x", -dw_attr.padding.prepended.w),
   ("dilation_x", dw_attr.dilations.w),
   ("stride_y", dw_attr.strides.h),
   ("padding_y", -dw_attr.padding.prepended.h),
   ("dilation_y", dw_attr.dilations.h)]

/-- The `// dw bias loading` loop of `UploadWeights` (lines 67-73):
`dw_dst_ch_aligned` entries, the bias value below `bias.shape.v` and
`0.0f` beyond. -/
def dwBiasRegion (dw_attr : DepthwiseConvolution2DAttributes) : List ℚ :=
  (List.range (alignByN dw_attr.weights.shape.i 4)).map fun i =>
    if i < dw_attr.bias.v then dw_attr.bias.data i else 0

/-- The `// dw weights loading` loop nest of `UploadWeights`
(lines 75-90): iterate `y`, `x`, channel group `d`, lane `i`; the weight
at `LinearIndex {0, y, x, d*4+i}` when `d*4+i` is a real channel, `0.0f`
for alignment padding. -/
def dwWeightsRegion (dw_attr : DepthwiseConvolution2DAttributes) : List ℚ :=
  (List.range dw_attr.weights.shape.h).flatMap fun y =>
    (List.range dw_attr.weights.shape.w).flatMap fun x =>
      (List.range (alignByN dw_attr.weights.shape.i 4 / 4)).flatMap fun d =>
        (List.range 4).map fun i =>
          let d_ch := d * 4 + i
          if d_ch < dw_attr.weights.shape.i then
            dw_attr.weights.data (dw_attr.weights.shape.linearIndex 0 y x d_ch)
          else 0

/-- The `// conv bias loading` loop of `UploadWeights` (lines 92-98). -/
def convBiasRegion (conv_attr : Convolution2DAttributes) : List ℚ :=
  (List.range (alignByN conv_attr.weights.shape.o 4)).map fun i =>
    if i < conv_attr.bias.v then conv_attr.bias.data i else 0

/-- The `// conv weights loading` loop nest of `UploadWeights`
(lines 100-117): iterate output group `d`, input group `s`, input lane
`j`, output lane `i`; the weight at `LinearIndex {d*4+i, 0, 0, s*4+j}`
when both channels are real, `0.0f` otherwise. -/
def convWeightsRegion (conv_attr : Convolution2DAttributes) : List ℚ :=
  (List.range (alignByN conv_attr.weights.shape.o 4 / 4)).flatMap fun d =>
    (List.range (alignByN conv_attr.weights.shape.i 4 / 4)).flatMap fun s =>
      (List.range 4).flatMap fun j =>
        (List.range 4).map fun i =>
          let s_ch := s * 4 + j
          let d_ch := d * 4 + i
          if s_ch < conv_attr.weights.shape.i ∧
              d_ch < conv_attr.weights.shape.o then
            conv_attr.weights.data
              (conv_attr.weights.shape.linearIndex d_ch 0 0 s_ch)
          else 0

/-- The full-precision `gpu_data` vector built by
`DepthwiseConvPlus1x1Conv::UploadWeights` (lines 57-117): the four
regions pushed back in order. -/
def uploadWeightsData (dw_attr : DepthwiseConvolution2DAttributes)
    (conv_attr : Convolution2DAttributes) : List ℚ :=
  dwBiasRegion dw_attr ++ dwWeightsRegion dw_attr ++
    convBiasRegion conv_attr ++ convWeightsRegion conv_attr

/-- The reduced-precision `gpu_data_half` vector of `UploadWeights`
(lines 127-130): every element of `gpu_data` converted to half precision.
The float-to-half conversion itself lives in the external `half` class
and is taken as a parameter. -/
def uploadWeightsDataHalf (toHalf : ℚ → ℚ)
    (dw_attr : DepthwiseConvolution2DAttributes)
    (conv_attr : Convolution2DAttributes) : List ℚ :=
  (uploadWeightsData dw_attr conv_attr).map toHalf

theorem length_flatMap_range {α : Type} (n c : ℕ) (f : ℕ → List α)
    (h : ∀ i, (f i).length = c) :
    ((List.range n).flatMap f).length = n * c := by
  induction n with
  | zero => simp
  | succ m ih =>
    rw [List.range_succ, List.flatMap_append, List.length_append, ih,
      List.flatMap_cons, List.flatMap_nil, List.append_nil, h,
      Nat.succ_mul]

theorem alignByN_div_mul (i : ℕ) : alignByN i 4 / 4 * 4 = alignByN i 4 := by
  unfold alignByN
  omega

theorem dwBiasRegion_length (dw_attr : DepthwiseConvolution2DAttributes) :
    (dwBiasRegion dw_attr).length = alignByN dw_attr.weights.shape.i 4 := by
  simp [dwBiasRegion]

theorem dwWeightsRegion_length (dw_attr : DepthwiseConvolution2DAttributes) :
    (dwWeightsRegion dw_attr).length =
      dw_attr.weights.shape.h * dw_attr.weights.shape.w *
        alignByN dw_attr.weights.shape.i 4 := by
  unfold dwWeightsRegion
  rw [length_flatMap_range _
      (dw_attr.weights.shape.w * alignByN dw_attr.weights.shape.i 4)]
  · ring
  intro y
  rw [length_flatMap_range _ (alignByN dw_attr.weights.shape.i 4)]
  intro x
  rw [length_flatMap_range _ 4]
  · exact alignByN_div_mul _
  intro d
  simp

theorem convBiasRegion_length (conv_attr : Convolution2DAttributes) :
    (convBiasRegion conv_attr).length =
      alignByN conv_attr.weights.shape.o 4 := by
  simp [convBiasRegion]

theorem convWeightsRegion_length (conv_attr : Convolution2DAttributes) :
    (convWeightsRegion conv_attr).length =
      (alignByN conv_attr.weights.shape.o 4 / 4) *
        (alignByN conv_attr.weights.shape.i 4 / 4) * 16 := by
  unfold convWeightsRegion
  rw [length_flatMap_range _ ((alignByN conv_attr.weights.shape.i 4 / 4) * 16)]
  · ring
  intro d
  rw [length_flatMap_range _ 16]
  intro s
  rw [length_flatMap_range _ 4]
  intro j
  simp

theorem mul_add_lt_mul {c k r n : ℕ} (hk : k < n) (hr : r < c) :
    c * k + r < c * n := by
  have h1 : c * (k + 1) ≤ c * n := Nat.mul_le_mul_left c hk
  rw [Nat.mul_succ] at h1
  omega

theorem getElem?_flatMap_range {α : Type} {f : ℕ → List α} {c : ℕ}
    (hf : ∀ i, (f i).length = c) {n k r : ℕ} (hk : k < n) (hr : r < c) :
    ((List.range n).flatMap f)[c * k + r]? = (f k)[r]? := by
  induction n with
  | zero => omega
  | succ m ih =>
    rw [List.range_succ, List.flatMap_append, List.flatMap_cons,
      List.flatMap_nil, List.append_nil]
    have hlen : ((List.range m).flatMap f).length = m * c :=
      length_flatMap_range m c f hf
    rcases Nat.lt_or_ge k m with hkm | hkm
    · rw [List.getElem?_append_left]
      · exact ih hkm
      · rw [hlen, Nat.mul_comm m c]
        exact mul_add_lt_mul hkm hr
    · have hk' : k = m := by omega
      subst hk'
      rw [List.getElem?_append_right]
      · rw [hlen, Nat.mul_comm k c, Nat.add_sub_cancel_left]
      · rw [hlen, Nat.mul_comm k c]
        exact Nat.le_add_right _ _

theorem getElem?_map_range {α : Type} {g : ℕ → α} {n r : ℕ} (hr : r < n) :
    ((List.range n).map g)[r]? = some (g r) := by
  rw [List.getElem?_map, List.getElem?_range hr]
  rfl

theorem getElem?_flatMap4 {α : Type} (N1 N2 N3 N4 : ℕ) (g : ℕ → ℕ → ℕ → ℕ → α)
    {a b c d : ℕ} (ha : a < N1) (hb : b < N2) (hc : c < N3) (hd : d < N4) :
    ((List.range N1).flatMap fun a' =>
      (List.range N2).flatMap fun b' =>
        (List.range N3).flatMap fun c' =>
          (List.range N4).map fun d' =>
            g a' b' c' d')[((a * N2 + b) * N3 + c) * N4 + d]? =
      some (g a b c d) := by
  have len4 : ∀ a' b' c',
      ((List.range N4).map fun d' => g a' b' c' d').length = N4 := by
    intro a' b' c'
    simp
  have len3 : ∀ a' b',
      ((List.range N3).flatMap fun c' =>
        (List.range N4).map fun d' => g a' b' c' d').length = N3 * N4 :=
    fun a' b' => length_flatMap_range _ _ _ (len4 a' b')
  have len2 : ∀ a',
      ((List.range N2).flatMap fun b' =>
        (List.range N3).flatMap fun c' =>
          (List.range N4).map fun d' => g a' b' c' d').length =
        N2 * (N3 * N4) :=
    fun a' => length_flatMap_range _ _ _ (len3 a')
  have hr3 : N4 * c + d < N4 * N3 := mul_add_lt_mul hc hd
  have hr3' : N4 * c + d < N3 * N4 := by rw [Nat.mul_comm N3 N4]; exact hr3
  have hr2 : (N3 * N4) * b + (N4 * c + d) < (N3 * N4) * N2 :=
    mul_add_lt_mul hb hr3'
  have hr2' : (N3 * N4) * b + (N4 * c + d) < N2 * (N3 * N4) := by
    rw [Nat.mul_comm N2 (N3 * N4)]; exact hr2
  have hidx : ((a * N2 + b) * N3 + c) * N4 + d =
      (N2 * (N3 * N4)) * a + ((N3 * N4) * b + (N4 * c + d)) := by ring
  rw [hidx, getElem?_flatMap_range len2 ha hr2']
  show ((List.range N2).flatMap fun b' =>
      (List.range N3).flatMap fun c' =>
        (List.range N4).map fun d' =>
          g a b' c' d')[(N3 * N4) * b + (N4 * c + d)]? = some (g a b c d)
  rw [getElem?_flatMap_range (len3 a) hb hr3']
  show ((List.range N3).flatMap fun c' =>
      (List.range N4).map fun d' => g a b c' d')[N4 * c + d]? =
    some (g a b c d)
  rw [getElem?_flatMap_range (len4 a b) hc hd]
  exact getElem?_map_range hd

theorem dwBiasRegion_getElem (dw_attr : DepthwiseConvolution2DAttributes)
    {i : ℕ} (hi : i < alignByN dw_attr.weights.shape.i 4) :
    (dwBiasRegion dw_attr)[i]? =
      some (if i < dw_attr.bias.v then dw_attr.bias.data i else 0) := by
  rw [dwBiasRegion]
  exact getElem?_map_range hi

theorem convBiasRegion_getElem (conv_attr : Convolution2DAttributes)
    {i : ℕ} (hi : i < alignByN conv_attr.weights.shape.o 4) :
    (convBiasRegion conv_attr)[i]? =
      some (if i < conv_attr.bias.v then conv_attr.bias.data i else 0) := by
  rw [convBiasRegion]
  exact getElem?_map_range hi

theorem dwWeightsRegion_getElem (dw_attr : DepthwiseConvolution2DAttributes)
    {y x d i : ℕ} (hy : y < dw_attr.weights.shape.h)
    (hx : x < dw_attr.weights.shape.w)
    (hd : d < alignByN dw_attr.weights.shape.i 4 / 4) (hi : i < 4) :
    (dwWeightsRegion dw_attr)[((y * dw_attr.weights.shape.w + x) *
        (alignByN dw_attr.weights.shape.i 4 / 4) + d) * 4 + i]? =
      some (if d * 4 + i < dw_attr.weights.shape.i then
          dw_attr.weights.data
            (dw_attr.weights.shape.linearIndex 0 y x (d * 4 + i))
        else 0) := by
  rw [dwWeightsRegion]
  exact getElem?_flatMap4 _ _ _ _ _ hy hx hd hi

theorem convWeightsRegion_getElem (conv_attr : Convolution2DAttributes)
    {d s j i : ℕ} (hd : d < alignByN conv_attr.weights.shape.o 4 / 4)
    (hs : s < alignByN conv_attr.weights.shape.i 4 / 4)
    (hj : j < 4) (hi : i < 4) :
    (convWeightsRegion conv_attr)[((d *
        (alignByN conv_attr.weights.shape.i 4 / 4) + s) * 4 + j) * 4 + i]? =
      some (if s * 4 + j < conv_attr.weights.shape.i ∧
            d * 4 + i < conv_attr.weights.shape.o then
          conv_attr.weights.data
            (conv_attr.weights.shape.linearIndex (d * 4 + i) 0 0 (s * 4 + j))
        else 0) := by
  rw [convWeightsRegion]
  exact getElem?_flatMap4 _ _ _ _ _ hd hs hj hi

theorem buf_getElem_r1 (dw_attr : DepthwiseConvolution2DAttributes)
    (conv_attr : Convolution2DAttributes) {i : ℕ}
    (hi : i < (dwBiasRegion dw_attr).length) :
    (uploadWeightsData dw_attr conv_attr)[i]? = (dwBiasRegion dw_attr)[i]? := by
  have h3 : i < ((dwBiasRegion dw_attr ++ dwWeightsRegion dw_attr) ++
      convBiasRegion conv_attr).length := by
    rw [List.length_append, List.length_append]; omega
  have h2 : i < (dwBiasRegion dw_attr ++ dwWeightsRegion dw_attr).length := by
    rw [List.length_append]; omega
  rw [uploadWeightsData, List.getElem?_append_left h3,
    List.getElem?_append_left h2, List.getElem?_append_left hi]

theorem buf_getElem_r2 (dw_attr : DepthwiseConvolution2DAttributes)
    (conv_attr : Convolution2DAttributes) {p : ℕ}
    (hp : p < (dwWeightsRegion dw_attr).length) :
    (uploadWeightsData dw_attr conv_attr)[(dwBiasRegion dw_attr).length + p]? =
      (dwWeightsRegion dw_attr)[p]? := by
  have h3 : (dwBiasRegion dw_attr).length + p <
      ((dwBiasRegion dw_attr ++ dwWeightsRegion dw_attr) ++
        convBiasRegion conv_attr).length := by
    rw [List.length_append, List.length_append]; omega
  have h2 : (dwBiasRegion dw_attr).length + p <
      (dwBiasRegion dw_attr ++ dwWeightsRegion dw_attr).length := by
    rw [List.length_append]; omega
  rw [uploadWeightsData, List.getElem?_append_left h3,
    List.getElem?_append_left h2,
    List.getElem?_append_right (Nat.le_add_right _ _),
    Nat.add_sub_cancel_left]

theorem buf_getElem_r3 (dw_attr : DepthwiseConvolution2DAttributes)
    (conv_attr : Convolution2DAttributes) {p : ℕ}
    (hp : p < (convBiasRegion conv_attr).length) :
    (uploadWeightsData dw_attr conv_attr)[(dwBiasRegion dw_attr).length +
        (dwWeightsRegion dw_attr).length + p]? =
      (convBiasRegion conv_attr)[p]? := by
  have h3 : (dwBiasRegion dw_attr).length + (dwWeightsRegion dw_attr).length +
      p < ((dwBiasRegion dw_attr ++ dwWeightsRegion dw_attr) ++
        convBiasRegion conv_attr).length := by
    rw [List.length_append, List.length_append]; omega
  have hge : (dwBiasRegion dw_attr ++ dwWeightsRegion dw_attr).length ≤
      (dwBiasRegion dw_attr).length + (dwWeightsRegion dw_attr).length + p := by
    rw [List.length_append]; omega
  rw [uploadWeightsData, List.getElem?_append_left h3,
    List.getElem?_append_right hge, List.length_append,
    Nat.add_sub_cancel_left]

theorem buf_getElem_r4 (dw_attr : DepthwiseConvolution2DAttributes)
    (conv_attr : Convolution2DAttributes) (p : ℕ) :
    (uploadWeightsData dw_attr conv_attr)[(dwBiasRegion dw_attr).length +
        (dwWeightsRegion dw_attr).length + (convBiasRegion conv_attr).length +
        p]? =
      (convWeightsRegion conv_attr)[p]? := by
  have hge : ((dwBiasRegion dw_attr ++ dwWeightsRegion dw_attr) ++
      convBiasRegion conv_attr).length ≤
      (dwBiasRegion dw_attr).length + (dwWeightsRegion dw_attr).length +
        (convBiasRegion conv_attr).length + p := by
    rw [List.length_append, List.length_append]; omega
  rw [uploadWeightsData, List.getElem?_append_right hge, List.length_append,
    List.length_append, Nat.add_sub_cancel_left]

theorem half_getElem_zero {dw_attr : DepthwiseConvolution2DAttributes}
    {conv_attr : Convolution2DAttributes} {toHalf : ℚ → ℚ} {p : ℕ}
    (h0 : toHalf 0 = 0)
    (h : (uploadWeightsData dw_attr conv_attr)[p]? = some 0) :
    (uploadWeightsDataHalf toHalf dw_attr conv_attr)[p]? = some 0 := by
  rw [uploadWeightsDataHalf, List.getElem?_map, h]
  show some (toHalf 0) = some 0
  rw [h0]

/-- `DataType` of a buffer descriptor (`FLOAT32` / `FLOAT16`). -/
inductive DataType where
  | FLOAT32
  | FLOAT16
deriving DecidableEq

/-- `MemoryType` of a buffer descriptor. -/
inductive MemoryType where
  | GLOBAL
  | CONSTANT
deriving DecidableEq

/-- `BufferDescriptor` as filled in by `UploadWeights` (lines 136-139). -/
structure BufferDescriptor where
  element_type : DataType
  element_size : ℕ
  memory_type : MemoryType
deriving DecidableEq

/-- The `args_.AddObject` registration of the packed constant buffer
(lines 140-142): symbolic name, layout descriptor and the device buffer
(of abstract type `β`) returned by `CreateReadOnlyBuffer`. -/
structure ConstantsArg (β : Type) where
  name : String
  descriptor : BufferDescriptor
  buffer : β

/-- The byte size passed to `CreateReadOnlyBuffer` by `UploadWeights`:
`float_size * gpu_data.size()` with `float_size` 4 for `F32` and 2
otherwise (the half vector has the same element count). -/
def uploadByteSize (definition : OperationDef)
    (dw_attr : DepthwiseConvolution2DAttributes)
    (conv_attr : Convolution2DAttributes) : ℕ :=
  (if definition.precision == CalculationsPrecision.F32 then 4 else 2) *
    (uploadWeightsData dw_attr conv_attr).length

/-- The scalar sequence passed to `CreateReadOnlyBuffer` by
`UploadWeights`: the full-precision data for `F32`, the converted
half-precision data otherwise. -/
def uploadPayload (definition : OperationDef) (toHalf : ℚ → ℚ)
    (dw_attr : DepthwiseConvolution2DAttributes)
    (conv_attr : Convolution2DAttributes) : List ℚ :=
  if definition.precision == CalculationsPrecision.F32 then
    uploadWeightsData dw_attr conv_attr
  else uploadWeightsDataHalf toHalf dw_attr conv_attr

/-- The buffer descriptor `UploadWeights` registers: element type
matching the precision, element stride 4 scalars, constant memory. -/
def constantsDescriptor (definition : OperationDef) : BufferDescriptor :=
  ⟨if definition.precision == CalculationsPrecision.F32 then DataType.FLOAT32
    else DataType.FLOAT16, 4, MemoryType.CONSTANT⟩

/-- `DepthwiseConvPlus1x1Conv::UploadWeights` (lines 54-144) as a status
computation: build `gpu_data` (and, for reduced precision, its half
conversion), call the external `CreateReadOnlyBuffer` primitive, return
its failure unchanged (`RETURN_IF_ERROR`), otherwise register the
`constants` object and succeed.  The buffer type `β`, the error type `ε`
and the external primitive are parameters. -/
def UploadWeights {ε β : Type} (definition : OperationDef)
    (dw_attr : DepthwiseConvolution2DAttributes)
    (conv_attr : Convolution2DAttributes) (toHalf : ℚ → ℚ)
    (createReadOnlyBuffer : ℕ → List ℚ → Except ε β) :
    Except ε (ConstantsArg β) :=
  let gpu_data := uploadWeightsData dw_attr conv_attr
  let fp32_weights := definition.precision == CalculationsPrecision.F32
  let float_size := if fp32_weights then 4 else 2
  let uploaded :=
    if fp32_weights then
      createReadOnlyBuffer (float_size * gpu_data.length) gpu_data
    else
      let gpu_data_half := uploadWeightsDataHalf toHalf dw_attr conv_attr
      createReadOnlyBuffer (float_size * gpu_data_half.length) gpu_data_half
  match uploaded with
  | .error e => .error e
  | .ok buf =>
    .ok ⟨"constants",
      ⟨if fp32_weights then DataType.FLOAT32 else DataType.FLOAT16, 4,
        MemoryType.CONSTANT⟩, buf⟩

/-- `CreateDepthwiseConvPlus1x1Conv` (lines 270-279): construct the
operation, then `RETURN_IF_ERROR(result->UploadWeights(...))`, then
`OkStatus`. -/
def CreateDepthwiseConvPlus1x1Conv {ε β : Type} (definition : OperationDef)
    (dw_attr : DepthwiseConvolution2DAttributes)
    (conv_attr : Convolution2DAttributes) (toHalf : ℚ → ℚ)
    (createReadOnlyBuffer : ℕ → List ℚ → Except ε β) :
    Except ε (ConstantsArg β) :=
  match UploadWeights definition dw_attr conv_attr toHalf
      createReadOnlyBuffer with
  | .error e => .error e
  | .ok r => .ok r

/-- Lines 186-189 of `GenerateCode`: the `dw_res_d` accumulator
declarations seeded from the constant buffer.  The first argument is the
remaining iteration count, then the loop index `d` and the running
`weights_counter`; the result is the emitted chunks, the constant-buffer
indices referenced (in emission order), and the final counter. -/
def dwDeclLoop : ℕ → ℕ → ℕ → List String × List ℕ × ℕ
  | 0, _, w => ([], [], w)
  | n + 1, d, w =>
    let line := "  FLT4 dw_res_" ++ (toString d ++ (" = constants[" ++
      (toString w ++ "];\n")))
    let rest := dwDeclLoop n (d + 1) (w + 1)
    (line :: rest.1, w :: rest.2.1, rest.2.2)

/-- Lines 210-216 of `GenerateCode`: the innermost loop over
intermediate-channel groups, emitting one source fetch (with the
in-bounds multiplier under manual clamping) and one multiply-accumulate
per group. -/
def dwSrcLoop (manual_clamp : Bool) : ℕ → ℕ → ℕ → List String × List ℕ × ℕ
  | 0, _, w => ([], [], w)
  | n + 1, d, w =>
    let multiplier := if manual_clamp then "* (FLT)(x_in && y_in)" else ""
    let l1 := "  src = args.src_tensor.Read(x_c, y_c, " ++ (toString d ++
      (")" ++ (multiplier ++ ";\n")))
    let l2 := "  dw_res_" ++ (toString d ++ (" += src * constants[" ++
      (toString w ++ "];\n")))
    let rest := dwSrcLoop manual_clamp n (d + 1) (w + 1)
    (l1 :: l2 :: rest.1, w :: rest.2.1, rest.2.2)

/-- Lines 203-217 of `GenerateCode`: the loop over kernel columns,
emitting the `x_c` coordinate, the manual x clamp when requested, and the
inner channel-group loop. -/
def kxLoop (manual_clamp : Bool) (intermediate_depth : ℕ) :
    ℕ → ℕ → ℕ → List String × List ℕ × ℕ
  | 0, _, w => ([], [], w)
  | n + 1, kx, w =>
    let hdr := "  x_c = x_offseted + " ++ (toString kx ++
      " * args.dilation_x;\n")
    let clampLines := if manual_clamp then
        ["  x_in = x_c >= 0 && x_c < args.src_tensor.Width();\n",
         "  x_c = clamp(x_c, 0, args.src_tensor.Width() - 1);\n"]
      else []
    let inner := dwSrcLoop manual_clamp intermediate_depth 0 w
    let rest := kxLoop manual_clamp intermediate_depth n (kx + 1) inner.2.2
    (hdr :: (clampLines ++ (inner.1 ++ rest.1)),
     inner.2.1 ++ rest.2.1, rest.2.2)

/-- Lines 197-218 of `GenerateCode`: the loop over kernel rows, emitting
the `y_c` coordinate, the manual y clamp when requested, and the column
loop. -/
def kyLoop (manual_clamp : Bool) (intermediate_depth kw : ℕ) :
    ℕ → ℕ → ℕ → List String × List ℕ × ℕ
  | 0, _, w => ([], [], w)
  | n + 1, ky, w =>
    let hdr := "  y_c = y_offseted + " ++ (toString ky ++
      " * args.dilation_y;\n")
    let clampLines := if manual_clamp then
        ["  y_in = y_c >= 0 && y_c < args.src_tensor.Height();\n",
         "  y_c = clamp(y_c, 0, args.src_tensor.Height() - 1);\n"]
      else []
    let inner := kxLoop manual_clamp intermediate_depth kw 0 w
    let rest := kyLoop manual_clamp intermediate_depth kw n (ky + 1)
      inner.2.2
    (hdr :: (clampLines ++ (inner.1 ++ rest.1)),
     inner.2.1 ++ rest.2.1, rest.2.2)

/-- Lines 219-222 of `GenerateCode`: the `conv_res_d` accumulator
declarations seeded from the constant buffer. -/
def convDeclLoop : ℕ → ℕ → ℕ → List String × List ℕ × ℕ
  | 0, _, w => ([], [], w)
  | n + 1, d, w =>
    let line := "  FLT4 conv_res_" ++ (toString d ++ (" = constants[" ++
      (toString w ++ "];\n")))
    let rest := convDeclLoop n (d + 1) (w + 1)
    (line :: rest.1, w :: rest.2.1, rest.2.2)

/-- Lines 224-235 of `GenerateCode`: the inner loop over
intermediate-channel groups of the pointwise stage, emitting the four
lane-wise multiply-accumulates (consuming four consecutive buffer
indices). -/
def convSLoop (d : ℕ) : ℕ → ℕ → ℕ → List String × List ℕ × ℕ
  | 0, _, w => ([], [], w)
  | n + 1, s, w =>
    let src := "dw_res_" ++ toString s
    let dst := "conv_res_" ++ toString d
    let l1 := "  " ++ (dst ++ (" += " ++ (src ++ (".x * constants[" ++
      (toString w ++ "];\n")))))
    let l2 := "  " ++ (dst ++ (" += " ++ (src ++ (".y * constants[" ++
      (toString (w + 1) ++ "];\n")))))
    let l3 := "  " ++ (dst ++ (" += " ++ (src ++ (".z * constants[" ++
      (toString (w + 2) ++ "];\n")))))
    let l4 := "  " ++ (dst ++ (" += " ++ (src ++ (".w * constants[" ++
      (toString (w + 3) ++ "];\n")))))
    let rest := convSLoop d n (s + 1) (w + 4)
    (l1 :: l2 :: l3 :: l4 :: rest.1,
     w :: (w + 1) :: (w + 2) :: (w + 3) :: rest.2.1, rest.2.2)

/-- Lines 219-238 of `GenerateCode`: the outer loop over output-channel
groups of the pointwise stage, emitting the inner loop and the
destination write. -/
def convDLoop (intermediate_depth : ℕ) : ℕ → ℕ → ℕ →
    List String × List ℕ × ℕ
  | 0, _, w => ([], [], w)
  | n + 1, d, w =>
    let inner := convSLoop d intermediate_depth 0 w
    let wr := "  args.dst_tensor.Write(conv_res_" ++ (toString d ++
      (", X, Y, " ++ (toString d ++ ");\n")))
    let rest := convDLoop intermediate_depth n (d + 1) inner.2.2
    (inner.1 ++ (wr :: rest.1), inner.2.1 ++ rest.2.1, rest.2.2)

/-- `DepthwiseConvPlus1x1Conv::GenerateCode` (lines 146-242), modelled
as the list of chunks appended to the accumulator `c` (first component;
the generated source text is their concatenation) together with the
sequence of constant-buffer indices referenced by emitted
`constants[...]` tokens — the successive values of the running
`weights_counter` — in emission order (second component).
`commonDefines` stands for the text returned by the external
`GetCommonDefines(op_def.precision)` helper. -/
def GenerateCode (commonDefines : String) (op_def : OperationDef)
    (dw_attr : DepthwiseConvolution2DAttributes) (result_depth : ℕ) :
    List String × List ℕ :=
  let manual_clamp := op_def.srcStorageType == TensorStorageType.BUFFER ||
    op_def.srcStorageType == TensorStorageType.IMAGE_BUFFER
  let intermediate_depth := divideRoundUp dw_attr.weights.shape.i 4
  let header :=
    commonDefines ::
    "__kernel void main_function(\n" ::
    "$0) \x7b\n" ::
    ((if op_def.dstHasBatch then
        ["  int linear_id = get_global_id(0);\n",
         "  int X = linear_id / args.dst_tensor.Batch();\n",
         "  int B = linear_id % args.dst_tensor.Batch();\n",
         "  args.dst_tensor.SetBatchRef(B);\n",
         "  args.src_tensor.SetBatchRef(B);\n"]
      else
        ["  int X = get_global_id(0);\n"]) ++
     ["  int Y = get_global_id(1);\n",
      "  if (X >= args.dst_tensor.Width() || Y >= args.dst_tensor.Height()) \x7b \n",
      "    return; \n",
      "  \x7d \n",
      "  __constant FLT4* constants = args.constants.GetPtr();\n"])
  let s1 := dwDeclLoop intermediate_depth 0 0
  let mid :=
    ["  int x_offseted = X * args.stride_x + args.padding_x;\n",
     "  int y_offseted = Y * args.stride_y + args.padding_y;\n",
     "  int x_c, y_c;\n"] ++
    ((if manual_clamp then ["  bool x_in, y_in;\n"] else []) ++
     ["  FLT4 src;\n"])
  let s3 := kyLoop manual_clamp intermediate_depth dw_attr.weights.shape.w
    dw_attr.weights.shape.h 0 s1.2.2
  let s4 := convDeclLoop result_depth 0 s3.2.2
  let s5 := convDLoop intermediate_depth result_depth 0 s4.2.2
  (header ++ (s1.1 ++ (mid ++ (s3.1 ++ (s4.1 ++ (s5.1 ++ ["\x7d\n"]))))),
   s1.2.1 ++ (s3.2.1 ++ (s4.2.1 ++ s5.2.1)))

/-- The full generated kernel source: the concatenation of the chunks. -/
def generateCodeText (commonDefines : String) (op_def : OperationDef)
    (dw_attr : DepthwiseConvolution2DAttributes) (result_depth : ℕ) :
    String :=
  String.join (GenerateCode commonDefines op_def dw_attr result_depth).1

/-- `p` is a prefix of the text `s` (character-wise). -/
def strHasPrefix (p s : String) : Bool := p.data.isPrefixOf s.data

/-- A chunk is the early-exit bounds check (the only `if` statement the
generator can emit). -/
def isIfChunk (s : String) : Bool := strHasPrefix "  if " s

/-- A chunk is one of the two manual clamp statements. -/
def isClampChunk (s : String) : Bool :=
  strHasPrefix "  y_c = clamp(" s || strHasPrefix "  x_c = clamp(" s

/-- A chunk is a source-fetch statement. -/
def isReadChunk (s : String) : Bool :=
  strHasPrefix "  src = args.src_tensor.Read(" s

theorem isPrefixOf_append_of_le {p a : List Char} (b : List Char)
    (h : p.length ≤ a.length) :
    p.isPrefixOf (a ++ b) = p.isPrefixOf a := by
  induction p generalizing a with
  | nil => simp [List.isPrefixOf]
  | cons c cs ih =>
    cases a with
    | nil => simp at h
    | cons d ds =>
      simp only [List.cons_append, List.isPrefixOf, List.append_eq]
      rw [ih (by simpa using h)]

theorem take_isPrefixOf {p a b : List Char}
    (h : p.isPrefixOf (a ++ b) = true) :
    (p.take a.length).isPrefixOf a = true := by
  induction p generalizing a with
  | nil => simp [List.isPrefixOf]
  | cons c cs ih =>
    cases a with
    | nil => simp [List.isPrefixOf]
    | cons d ds =>
      simp only [List.cons_append, List.isPrefixOf, Bool.and_eq_true] at h
      simp only [List.length_cons, List.take_succ_cons, List.isPrefixOf,
        Bool.and_eq_true]
      exact ⟨h.1, ih h.2⟩

theorem strHasPrefix_append_false (p A t : String)
    (h : (p.data.take A.data.length).isPrefixOf A.data = false) :
    strHasPrefix p (A ++ t) = false := by
  unfold strHasPrefix
  rw [String.data_append]
  cases heq : p.data.isPrefixOf (A.data ++ t.data)
  · rfl
  · have htake := take_isPrefixOf heq
    rw [h] at htake
    simp at htake

theorem strHasPrefix_append_true (p A t : String)
    (hle : p.data.length ≤ A.data.length) (h : strHasPrefix p A = true) :
    strHasPrefix p (A ++ t) = true := by
  unfold strHasPrefix at *
  rw [String.data_append, isPrefixOf_append_of_le _ hle]
  exact h

theorem strHasPrefix_lit2_false (p a b t r : String)
    (h : (p.data.take (a ++ b).data.length).isPrefixOf (a ++ b).data =
      false) :
    strHasPrefix p (a ++ ((b ++ t) ++ r)) = false := by
  have e : a ++ ((b ++ t) ++ r) = (a ++ b) ++ (t ++ r) := by
    rw [String.append_assoc b t r, ← String.append_assoc a b (t ++ r)]
  rw [e]
  exact strHasPrefix_append_false p (a ++ b) (t ++ r) h

theorem dwDeclLoop_count (q : String → Bool)
    (h : ∀ t, q ("  FLT4 dw_res_" ++ t) = false) :
    ∀ n d w, List.countP q (dwDeclLoop n d w).1 = 0 := by
  intro n
  induction n with
  | zero => intro d w; rfl
  | succ m ih =>
    intro d w
    simp [dwDeclLoop, List.countP_cons, ih (d + 1) (w + 1), h]

theorem convDeclLoop_count (q : String → Bool)
    (h : ∀ t, q ("  FLT4 conv_res_" ++ t) = false) :
    ∀ n d w, List.countP q (convDeclLoop n d w).1 = 0 := by
  intro n
  induction n with
  | zero => intro d w; rfl
  | succ m ih =>
    intro d w
    simp [convDeclLoop, List.countP_cons, ih (d + 1) (w + 1), h]

theorem dwSrcLoop_count (q : String → Bool) (mc : Bool) (qr : Bool)
    (hr : ∀ t, q ("  src = args.src_tensor.Read(x_c, y_c, " ++ t) = qr)
    (ha : ∀ t, q ("  dw_res_" ++ t) = false) :
    ∀ n d w, List.countP q (dwSrcLoop mc n d w).1 = n * cond qr 1 0 := by
  intro n
  induction n with
  | zero => intro d w; simp [dwSrcLoop, Nat.zero_mul]
  | succ m ih =>
    intro d w
    simp only [dwSrcLoop, List.countP_cons, ih (d + 1) (w + 1), hr, ha]
    cases qr <;> simp [Nat.succ_mul]

theorem kxLoop_count (q : String → Bool) (mc : Bool) (ID : ℕ) (qr : Bool)
    (cx : ℕ)
    (hhdr : ∀ t, q ("  x_c = x_offseted + " ++ t) = false)
    (hr : ∀ t, q ("  src = args.src_tensor.Read(x_c, y_c, " ++ t) = qr)
    (ha : ∀ t, q ("  dw_res_" ++ t) = false)
    (hcl : List.countP q (if mc = true then
      ["  x_in = x_c >= 0 && x_c < args.src_tensor.Width();\n",
       "  x_c = clamp(x_c, 0, args.src_tensor.Width() - 1);\n"]
      else []) = cx) :
    ∀ n kx w, List.countP q (kxLoop mc ID n kx w).1 =
      n * (cx + ID * cond qr 1 0) := by
  intro n
  induction n with
  | zero => intro kx w; simp [kxLoop, Nat.zero_mul]
  | succ m ih =>
    intro kx w
    simp only [kxLoop, List.countP_cons, List.countP_append,
      ih (kx + 1) ((dwSrcLoop mc ID 0 w).2.2), hhdr, hcl,
      dwSrcLoop_count q mc qr hr ha ID 0 w]
    cases qr <;> simp <;> ring

theorem kyLoop_count (q : String → Bool) (mc : Bool) (ID KW : ℕ)
    (qr : Bool) (cx cy : ℕ)
    (hyhdr : ∀ t, q ("  y_c = y_offseted + " ++ t) = false)
    (hhdr : ∀ t, q ("  x_c = x_offseted + " ++ t) = false)
    (hr : ∀ t, q ("  src = args.src_tensor.Read(x_c, y_c, " ++ t) = qr)
    (ha : ∀ t, q ("  dw_res_" ++ t) = false)
    (hcl : List.countP q (if mc = true then
      ["  x_in = x_c >= 0 && x_c < args.src_tensor.Width();\n",
       "  x_c = clamp(x_c, 0, args.src_tensor.Width() - 1);\n"]
      else []) = cx)
    (hycl : List.countP q (if mc = true then
      ["  y_in = y_c >= 0 && y_c < args.src_tensor.Height();\n",
       "  y_c = clamp(y_c, 0, args.src_tensor.Height() - 1);\n"]
      else []) = cy) :
    ∀ n ky w, List.countP q (kyLoop mc ID KW n ky w).1 =
      n * (cy + KW * (cx + ID * cond qr 1 0)) := by
  intro n
  induction n with
  | zero => intro ky w; simp [kyLoop, Nat.zero_mul]
  | succ m ih =>
    intro ky w
    simp only [kyLoop, List.countP_cons, List.countP_append,
      ih (ky + 1) ((kxLoop mc ID KW 0 w).2.2), hyhdr, hycl,
      kxLoop_count q mc ID qr cx hhdr hr ha hcl KW 0 w]
    cases qr <;> simp <;> ring

theorem convSLoop_count (q : String → Bool)
    (ha : ∀ t r, q ("  " ++ (("conv_res_" ++ t) ++ r)) = false) :
    ∀ d n s w, List.countP q (convSLoop d n s w).1 = 0 := by
  intro d n
  induction n with
  | zero => intro s w; rfl
  | succ m ih =>
    intro s w
    simp [convSLoop, List.countP_cons, ih (s + 1) (w + 4), ha]

theorem convDLoop_count (q : String → Bool)
    (ha : ∀ t r, q ("  " ++ (("conv_res_" ++ t) ++ r)) = false)
    (hw : ∀ t, q ("  args.dst_tensor.Write(conv_res_" ++ t) = false) :
    ∀ ID n d w, List.countP q (convDLoop ID n d w).1 = 0 := by
  intro ID n
  induction n with
  | zero => intro d w; rfl
  | succ m ih =>
    intro d w
    simp [convDLoop, List.countP_cons, List.countP_append,
      ih (d + 1) ((convSLoop d ID 0 w).2.2), hw,
      convSLoop_count q ha d ID 0 w]

theorem generateCode_countP (q : String → Bool) (cd : String)
    (op_def : OperationDef) (dw_attr : DepthwiseConvolution2DAttributes)
    (rd : ℕ) (qif qcl qr : Bool)
    (hcd : q cd = false)
    (hk1 : q "__kernel void main_function(\n" = false)
    (hk2 : q "$0) \x7b\n" = false)
    (hb1 : q "  int linear_id = get_global_id(0);\n" = false)
    (hb2 : q "  int X = linear_id / args.dst_tensor.Batch();\n" = false)
    (hb3 : q "  int B = linear_id % args.dst_tensor.Batch();\n" = false)
    (hb4 : q "  args.dst_tensor.SetBatchRef(B);\n" = false)
    (hb5 : q "  args.src_tensor.SetBatchRef(B);\n" = false)
    (hnb : q "  int X = get_global_id(0);\n" = false)
    (hY : q "  int Y = get_global_id(1);\n" = false)
    (hif : q
      "  if (X >= args.dst_tensor.Width() || Y >= args.dst_tensor.Height()) \x7b \n"
      = qif)
    (hret : q "    return; \n" = false)
    (hbrace : q "  \x7d \n" = false)
    (hconst : q "  __constant FLT4* constants = args.constants.GetPtr();\n" =
      false)
    (hm1 : q "  int x_offseted = X * args.stride_x + args.padding_x;\n" =
      false)
    (hm2 : q "  int y_offseted = Y * args.stride_y + args.padding_y;\n" =
      false)
    (hm3 : q "  int x_c, y_c;\n" = false)
    (hbool : q "  bool x_in, y_in;\n" = false)
    (hsrcd : q "  FLT4 src;\n" = false)
    (hclose : q "\x7d\n" = false)
    (hxin : q "  x_in = x_c >= 0 && x_c < args.src_tensor.Width();\n" = false)
    (hxcl : q "  x_c = clamp(x_c, 0, args.src_tensor.Width() - 1);\n" = qcl)
    (hyin : q "  y_in = y_c >= 0 && y_c < args.src_tensor.Height();\n" =
      false)
    (hycl : q "  y_c = clamp(y_c, 0, args.src_tensor.Height() - 1);\n" = qcl)
    (hdwdecl : ∀ t, q ("  FLT4 dw_res_" ++ t) = false)
    (hconvdecl : ∀ t, q ("  FLT4 conv_res_" ++ t) = false)
    (hyhdr : ∀ t, q ("  y_c = y_offseted + " ++ t) = false)
    (hhdr : ∀ t, q ("  x_c = x_offseted + " ++ t) = false)
    (hr : ∀ t, q ("  src = args.src_tensor.Read(x_c, y_c, " ++ t) = qr)
    (ha : ∀ t, q ("  dw_res_" ++ t) = false)
    (hca : ∀ t r, q ("  " ++ (("conv_res_" ++ t) ++ r)) = false)
    (hwr : ∀ t, q ("  args.dst_tensor.Write(conv_res_" ++ t) = false) :
    List.countP q (GenerateCode cd op_def dw_attr rd).1 =
      cond qif 1 0 +
        dw_attr.weights.shape.h *
          (cond (op_def.srcStorageType == TensorStorageType.BUFFER ||
              op_def.srcStorageType == TensorStorageType.IMAGE_BUFFER)
              (cond qcl 1 0) 0 +
            dw_attr.weights.shape.w *
              (cond (op_def.srcStorageType == TensorStorageType.BUFFER ||
                  op_def.srcStorageType == TensorStorageType.IMAGE_BUFFER)
                  (cond qcl 1 0) 0 +
                divideRoundUp dw_attr.weights.shape.i 4 * cond qr 1 0)) := by
  have hdecl0 := dwDeclLoop_count q hdwdecl
  have hconv0 := convDeclLoop_count q hconvdecl
  have hdl0 := convDLoop_count q hca hwr
  have hky := kyLoop_count q
    (op_def.srcStorageType == TensorStorageType.BUFFER ||
      op_def.srcStorageType == TensorStorageType.IMAGE_BUFFER)
    (divideRoundUp dw_attr.weights.shape.i 4) dw_attr.weights.shape.w qr
    (List.countP q (if (op_def.srcStorageType == TensorStorageType.BUFFER ||
        op_def.srcStorageType == TensorStorageType.IMAGE_BUFFER) = true then
      ["  x_in = x_c >= 0 && x_c < args.src_tensor.Width();\n",
       "  x_c = clamp(x_c, 0, args.src_tensor.Width() - 1);\n"]
      else []))
    (List.countP q (if (op_def.srcStorageType == TensorStorageType.BUFFER ||
        op_def.srcStorageType == TensorStorageType.IMAGE_BUFFER) = true then
      ["  y_in = y_c >= 0 && y_c < args.src_tensor.Height();\n",
       "  y_c = clamp(y_c, 0, args.src_tensor.Height() - 1);\n"]
      else []))
    hyhdr hhdr hr ha rfl rfl
  simp only [GenerateCode]
  cases hmc : op_def.srcStorageType == TensorStorageType.BUFFER ||
      op_def.srcStorageType == TensorStorageType.IMAGE_BUFFER <;>
    cases hb : op_def.dstHasBatch <;>
    · rw [hmc] at hky
      simp [List.countP_cons, List.countP_append, hcd, hk1, hk2, hb1, hb2,
        hb3, hb4, hb5, hnb, hY, hif, hret, hbrace, hconst, hm1, hm2, hm3,
        hbool, hsrcd, hclose, hxin, hxcl, hyin, hycl,
        hdecl0, hconv0, hdl0, hky]
      cases qif <;> cases qcl <;> cases qr <;> simp <;> ring

theorem isIf_append (A t : String)
    (h : ("  if ".data.take A.data.length).isPrefixOf A.data = false) :
    isIfChunk (A ++ t) = false := by
  unfold isIfChunk
  exact strHasPrefix_append_false _ _ _ h

theorem isClamp_append (A t : String)
    (h1 : ("  y_c = clamp(".data.take A.data.length).isPrefixOf A.data =
      false)
    (h2 : ("  x_c = clamp(".data.take A.data.length).isPrefixOf A.data =
      false) :
    isClampChunk (A ++ t) = false := by
  unfold isClampChunk
  rw [strHasPrefix_append_false _ _ _ h1, strHasPrefix_append_false _ _ _ h2]
  rfl

theorem isRead_append (A t : String)
    (h : ("  src = args.src_tensor.Read(".data.take
      A.data.length).isPrefixOf A.data = false) :
    isReadChunk (A ++ t) = false := by
  unfold isReadChunk
  exact strHasPrefix_append_false _ _ _ h

theorem isRead_read (t : String) :
    isReadChunk ("  src = args.src_tensor.Read(x_c, y_c, " ++ t) = true := by
  unfold isReadChunk
  exact strHasPrefix_append_true _ _ _ (by decide) (by decide)

theorem isIf_lit2 (a b t r : String)
    (h : ("  if ".data.take (a ++ b).data.length).isPrefixOf (a ++ b).data =
      false) :
    isIfChunk (a ++ ((b ++ t) ++ r)) = false := by
  unfold isIfChunk
  exact strHasPrefix_lit2_false _ _ _ _ _ h

theorem isClamp_lit2 (a b t r : String)
    (h1 : ("  y_c = clamp(".data.take (a ++ b).data.length).isPrefixOf
      (a ++ b).data = false)
    (h2 : ("  x_c = clamp(".data.take (a ++ b).data.length).isPrefixOf
      (a ++ b).data = false) :
    isClampChunk (a ++ ((b ++ t) ++ r)) = false := by
  unfold isClampChunk
  rw [strHasPrefix_lit2_false _ _ _ _ _ h1, strHasPrefix_lit2_false _ _ _ _ _
    h2]
  rfl

theorem isRead_lit2 (a b t r : String)
    (h : ("  src = args.src_tensor.Read(".data.take
      (a ++ b).data.length).isPrefixOf (a ++ b).data = false) :
    isReadChunk (a ++ ((b ++ t) ++ r)) = false := by
  unfold isReadChunk
  exact strHasPrefix_lit2_false _ _ _ _ _ h

theorem countP_isIf (cd : String) (op_def : OperationDef)
    (dw_attr : DepthwiseConvolution2DAttributes) (rd : ℕ)
    (hcd : isIfChunk cd = false) :
    List.countP isIfChunk (GenerateCode cd op_def dw_attr rd).1 = 1 := by
  have H := generateCode_countP isIfChunk cd op_def dw_attr rd true false
    false hcd (by decide) (by decide) (by decide) (by decide) (by decide)
    (by decide) (by decide) (by decide) (by decide) (by decide) (by decide)
    (by decide) (by decide) (by decide) (by decide) (by decide) (by decide)
    (by decide) (by decide) (by decide) (by decide) (by decide) (by decide)
    (fun t => isIf_append "  FLT4 dw_res_" t (by decide))
    (fun t => isIf_append "  FLT4 conv_res_" t (by decide))
    (fun t => isIf_append "  y_c = y_offseted + " t (by decide))
    (fun t => isIf_append "  x_c = x_offseted + " t (by decide))
    (fun t => isIf_append "  src = args.src_tensor.Read(x_c, y_c, " t
      (by decide))
    (fun t => isIf_append "  dw_res_" t (by decide))
    (fun t r => isIf_lit2 "  " "conv_res_" t r (by decide))
    (fun t => isIf_append "  args.dst_tensor.Write(conv_res_" t (by decide))
  rw [H]
  simp

theorem countP_isClamp (cd : String) (op_def : OperationDef)
    (dw_attr : DepthwiseConvolution2DAttributes) (rd : ℕ)
    (hcd : isClampChunk cd = false) :
    List.countP isClampChunk (GenerateCode cd op_def dw_attr rd).1 =
      cond (op_def.srcStorageType == TensorStorageType.BUFFER ||
          op_def.srcStorageType == TensorStorageType.IMAGE_BUFFER)
        (dw_attr.weights.shape.h * (1 + dw_attr.weights.shape.w)) 0 := by
  have H := generateCode_countP isClampChunk cd op_def dw_attr rd false true
    false hcd (by decide) (by decide) (by decide) (by decide) (by decide)
    (by decide) (by decide) (by decide) (by decide) (by decide) (by decide)
    (by decide) (by decide) (by decide) (by decide) (by decide) (by decide)
    (by decide) (by decide) (by decide) (by decide) (by decide) (by decide)
    (fun t => isClamp_append "  FLT4 dw_res_" t (by decide) (by decide))
    (fun t => isClamp_append "  FLT4 conv_res_" t (by decide) (by decide))
    (fun t => isClamp_append "  y_c = y_offseted + " t (by decide)
      (by decide))
    (fun t => isClamp_append "  x_c = x_offseted + " t (by decide)
      (by decide))
    (fun t => isClamp_append "  src = args.src_tensor.Read(x_c, y_c, " t
      (by decide) (by decide))
    (fun t => isClamp_append "  dw_res_" t (by decide) (by decide))
    (fun t r => isClamp_lit2 "  " "conv_res_" t r (by decide) (by decide))
    (fun t => isClamp_append "  args.dst_tensor.Write(conv_res_" t
      (by decide) (by decide))
  rw [H]
  cases op_def.srcStorageType == TensorStorageType.BUFFER ||
      op_def.srcStorageType == TensorStorageType.IMAGE_BUFFER <;>
    simp [Nat.mul_add, Nat.add_comm]

theorem countP_isRead (cd : String) (op_def : OperationDef)
    (dw_attr : DepthwiseConvolution2DAttributes) (rd : ℕ)
    (hcd : isReadChunk cd = false) :
    List.countP isReadChunk (GenerateCode cd op_def dw_attr rd).1 =
      dw_attr.weights.shape.h * (dw_attr.weights.shape.w *
        divideRoundUp dw_attr.weights.shape.i 4) := by
  have H := generateCode_countP isReadChunk cd op_def dw_attr rd false false
    true hcd (by decide) (by decide) (by decide) (by decide) (by decide)
    (by decide) (by decide) (by decide) (by decide) (by decide) (by decide)
    (by decide) (by decide) (by decide) (by decide) (by decide) (by decide)
    (by decide) (by decide) (by decide) (by decide) (by decide) (by decide)
    (fun t => isRead_append "  FLT4 dw_res_" t (by decide))
    (fun t => isRead_append "  FLT4 conv_res_" t (by decide))
    (fun t => isRead_append "  y_c = y_offseted + " t (by decide))
    (fun t => isRead_append "  x_c = x_offseted + " t (by decide))
    (fun t => isRead_read t)
    (fun t => isRead_append "  dw_res_" t (by decide))
    (fun t r => isRead_lit2 "  " "conv_res_" t r (by decide))
    (fun t => isRead_append "  args.dst_tensor.Write(conv_res_" t
      (by decide))
  rw [H]
  simp

theorem alignByN_div (x : ℕ) : alignByN x 4 / 4 = divideRoundUp x 4 := by
  unfold alignByN
  exact Nat.mul_div_cancel _ (by norm_num)

theorem dwDeclLoop_indices (n : ℕ) : ∀ d w,
    (dwDeclLoop n d w).2.1 = List.range' w n ∧
    (dwDeclLoop n d w).2.2 = w + n := by
  induction n with
  | zero => intro d w; exact ⟨rfl, rfl⟩
  | succ m ih =>
    intro d w
    simp only [dwDeclLoop]
    refine ⟨?_, ?_⟩
    · rw [(ih (d + 1) (w + 1)).1, List.range'_succ]
    · rw [(ih (d + 1) (w + 1)).2]; omega

theorem convDeclLoop_indices (n : ℕ) : ∀ d w,
    (convDeclLoop n d w).2.1 = List.range' w n ∧
    (convDeclLoop n d w).2.2 = w + n := by
  induction n with
  | zero => intro d w; exact ⟨rfl, rfl⟩
  | succ m ih =>
    intro d w
    simp only [convDeclLoop]
    refine ⟨?_, ?_⟩
    · rw [(ih (d + 1) (w + 1)).1, List.range'_succ]
    · rw [(ih (d + 1) (w + 1)).2]; omega

theorem dwSrcLoop_indices (mc : Bool) (n : ℕ) : ∀ d w,
    (dwSrcLoop mc n d w).2.1 = List.range' w n ∧
    (dwSrcLoop mc n d w).2.2 = w + n := by
  induction n with
  | zero => intro d w; exact ⟨rfl, rfl⟩
  | succ m ih =>
    intro d w
    simp only [dwSrcLoop]
    refine ⟨?_, ?_⟩
    · rw [(ih (d + 1) (w + 1)).1, List.range'_succ]
    · rw [(ih (d + 1) (w + 1)).2]; omega

theorem kxLoop_indices (mc : Bool) (ID : ℕ) (n : ℕ) : ∀ kx w,
    (kxLoop mc ID n kx w).2.1 = List.range' w (n * ID) ∧
    (kxLoop mc ID n kx w).2.2 = w + n * ID := by
  induction n with
  | zero => intro kx w; constructor <;> simp [kxLoop, Nat.zero_mul]
  | succ m ih =>
    intro kx w
    simp only [kxLoop]
    have hin := dwSrcLoop_indices mc ID 0 w
    refine ⟨?_, ?_⟩
    · rw [hin.1, hin.2, (ih (kx + 1) (w + ID)).1]
      have happ := List.range'_append w ID (m * ID) 1
      rw [one_mul] at happ
      rw [happ]
      congr 1
      ring
    · rw [hin.2, (ih (kx + 1) (w + ID)).2]
      ring

theorem kyLoop_indices (mc : Bool) (ID KW : ℕ) (n : ℕ) : ∀ ky w,
    (kyLoop mc ID KW n ky w).2.1 = List.range' w (n * (KW * ID)) ∧
    (kyLoop mc ID KW n ky w).2.2 = w + n * (KW * ID) := by
  induction n with
  | zero => intro ky w; constructor <;> simp [kyLoop, Nat.zero_mul]
  | succ m ih =>
    intro ky w
    simp only [kyLoop]
    have hin := kxLoop_indices mc ID KW 0 w
    refine ⟨?_, ?_⟩
    · rw [hin.1, hin.2, (ih (ky + 1) (w + KW * ID)).1]
      have happ := List.range'_append w (KW * ID) (m * (KW * ID)) 1
      rw [one_mul] at happ
      rw [happ]
      congr 1
      ring
    · rw [hin.2, (ih (ky + 1) (w + KW * ID)).2]
      ring

theorem convSLoop_indices (d : ℕ) (n : ℕ) : ∀ s w,
    (convSLoop d n s w).2.1 = List.range' w (n * 4) ∧
    (convSLoop d n s w).2.2 = w + n * 4 := by
  induction n with
  | zero => intro s w; constructor <;> simp [convSLoop, Nat.zero_mul]
  | succ m ih =>
    intro s w
    simp only [convSLoop]
    refine ⟨?_, ?_⟩
    · rw [(ih (s + 1) (w + 4)).1]
      show List.range' w 4 ++ List.range' (w + 4) (m * 4) =
        List.range' w ((m + 1) * 4)
      have happ := List.range'_append w 4 (m * 4) 1
      rw [one_mul] at happ
      rw [happ]
      congr 1
      ring
    · rw [(ih (s + 1) (w + 4)).2]
      ring

theorem convDLoop_indices (ID : ℕ) (n : ℕ) : ∀ d w,
    (convDLoop ID n d w).2.1 = List.range' w (n * (ID * 4)) ∧
    (convDLoop ID n d w).2.2 = w + n * (ID * 4) := by
  induction n with
  | zero => intro d w; constructor <;> simp [convDLoop, Nat.zero_mul]
  | succ m ih =>
    intro d w
    simp only [convDLoop]
    have hin := convSLoop_indices d ID 0 w
    refine ⟨?_, ?_⟩
    · rw [hin.1, hin.2, (ih (d + 1) (w + ID * 4)).1]
      have happ := List.range'_append w (ID * 4) (m * (ID * 4)) 1
      rw [one_mul] at happ
      rw [happ]
      congr 1
      ring
    · rw [hin.2, (ih (d + 1) (w + ID * 4)).2]
      ring

theorem generateCode_indices (cd : String) (op_def : OperationDef)
    (dw_attr : DepthwiseConvolution2DAttributes) (result_depth : ℕ) :
    (GenerateCode cd op_def dw_attr result_depth).2 =
      List.range (divideRoundUp dw_attr.weights.shape.i 4 +
        dw_attr.weights.shape.h * dw_attr.weights.shape.w *
          divideRoundUp dw_attr.weights.shape.i 4 +
        result_depth +
        result_depth * divideRoundUp dw_attr.weights.shape.i 4 * 4) := by
  simp only [GenerateCode]
  rw [(dwDeclLoop_indices _ 0 0).1, (dwDeclLoop_indices _ 0 0).2,
    (kyLoop_indices _ _ _ _ 0 (0 + divideRoundUp dw_attr.weights.shape.i 4)).1,
    (kyLoop_indices _ _ _ _ 0 (0 + divideRoundUp dw_attr.weights.shape.i 4)).2,
    (convDeclLoop_indices _ 0 _).1, (convDeclLoop_indices _ 0 _).2,
    (convDLoop_indices _ _ 0 _).1]
  have h1 := List.range'_append
    (0 + divideRoundUp dw_attr.weights.shape.i 4 +
      dw_attr.weights.shape.h * (dw_attr.weights.shape.w *
        divideRoundUp dw_attr.weights.shape.i 4))
    result_depth
    (result_depth * (divideRoundUp dw_attr.weights.shape.i 4 * 4)) 1
  rw [one_mul] at h1
  rw [h1]
  have h2 := List.range'_append
    (0 + divideRoundUp dw_attr.weights.shape.i 4)
    (dw_attr.weights.shape.h * (dw_attr.weights.shape.w *
      divideRoundUp dw_attr.weights.shape.i 4))
    (result_depth * (divideRoundUp dw_attr.weights.shape.i 4 * 4) +
      result_depth) 1
  rw [one_mul] at h2
  rw [h2]
  have h3 := List.range'_append 0 (divideRoundUp dw_attr.weights.shape.i 4)
    (result_depth * (divideRoundUp dw_attr.weights.shape.i 4 * 4) +
      result_depth +
      dw_attr.weights.shape.h * (dw_attr.weights.shape.w *
        divideRoundUp dw_attr.weights.shape.i 4)) 1
  rw [one_mul] at h3
  rw [h3, List.range_eq_range']
  congr 1
  ring

/-- An all-zero scalar storage, used by the concrete examples. -/
def zeroData : ℕ → ℚ := fun _ => 0

/-- Scenario A depthwise attributes: 3x3 kernel, stride 1, dilation 1,
padding 1, 8 input channels, output multiplier 1. -/
def dwExA : DepthwiseConvolution2DAttributes where
  weights := ⟨⟨1, 3, 3, 8⟩, zeroData⟩
  bias := ⟨8, zeroData⟩
  strides := ⟨1, 1⟩
  dilations := ⟨1, 1⟩
  padding := ⟨⟨1, 1⟩, ⟨1, 1⟩⟩

/-- Scenario A pointwise attributes: 1x1 kernel, 8 input channels,
16 output channels, stride 1, dilation 1, zero padding. -/
def convExA : Convolution2DAttributes where
  weights := ⟨⟨16, 1, 1, 8⟩, zeroData⟩
  bias := ⟨16, zeroData⟩
  strides := ⟨1, 1⟩
  dilations := ⟨1, 1⟩
  padding := ⟨⟨0, 0⟩, ⟨0, 0⟩⟩

/-- A small depthwise example: 1x1 kernel, 2 input channels. -/
def dwExS : DepthwiseConvolution2DAttributes where
  weights := ⟨⟨1, 1, 1, 2⟩, zeroData⟩
  bias := ⟨2, zeroData⟩
  strides := ⟨1, 1⟩
  dilations := ⟨1, 1⟩
  padding := ⟨⟨0, 0⟩, ⟨0, 0⟩⟩

/-- A small pointwise example matching `dwExS`: 1x1, 2 in, 3 out. -/
def convExS : Convolution2DAttributes where
  weights := ⟨⟨3, 1, 1, 2⟩, zeroData⟩
  bias := ⟨3, zeroData⟩
  strides := ⟨1, 1⟩
  dilations := ⟨1, 1⟩
  padding := ⟨⟨0, 0⟩, ⟨0, 0⟩⟩

/-- An example operation definition: full precision, texture storage,
no batch axis. -/
def opDefEx : OperationDef where
  precision := CalculationsPrecision.F32
  srcStorageType := TensorStorageType.TEXTURE_2D
  dstHasBatch := false

/-- A depthwise example with 4 channels (1x1 kernel). -/
def dwEx9 : DepthwiseConvolution2DAttributes where
  weights := ⟨⟨1, 1, 1, 4⟩, zeroData⟩
  bias := ⟨4, zeroData⟩
  strides := ⟨1, 1⟩
  dilations := ⟨1, 1⟩
  padding := ⟨⟨0, 0⟩, ⟨0, 0⟩⟩

/-- A pointwise example with 8 input channels and 4 output channels,
deliberately mismatching the 4 depthwise channels of `dwEx9`. -/
def convEx9 : Convolution2DAttributes where
  weights := ⟨⟨4, 1, 1, 8⟩, zeroData⟩
  bias := ⟨4, zeroData⟩
  strides := ⟨1, 1⟩
  dilations := ⟨1, 1⟩
  padding := ⟨⟨0, 0⟩, ⟨0, 0⟩⟩

end DwConvPlus1x1

namespace DwConvPlus1x1

/-- C2: `IsDepthwiseConvPlus1x1ConvSupported` returns `true` exactly when
the depthwise output multiplier is 1; the pointwise kernel is 1x1 with
stride 1x1, dilation 1x1 and zero prepended/appended padding in x and y;
the depthwise input channel count is at most 16 and
`channels * kernel_h * kernel_w ≤ 144`; and the pointwise output channel
count is at most 32 with `in_channels * out_channels ≤ 512`. -/
theorem supported_iff (dw_attr : DepthwiseConvolution2DAttributes)
    (conv_attr : Convolution2DAttributes) :
    IsDepthwiseConvPlus1x1ConvSupported dw_attr conv_attr = true ↔
      (dw_attr.weights.shape.o = 1 ∧
       (conv_attr.weights.shape.w = 1 ∧ conv_attr.weights.shape.h = 1 ∧
        conv_attr.dilations.w = 1 ∧ conv_attr.dilations.h = 1 ∧
        conv_attr.strides.w = 1 ∧ conv_attr.strides.h = 1 ∧
        conv_attr.padding.prepended.w = 0 ∧ conv_attr.padding.prepended.h = 0 ∧
        conv_attr.padding.appended.w = 0 ∧ conv_attr.padding.appended.h = 0) ∧
       (dw_attr.weights.shape.i ≤ 16 ∧
        dw_attr.weights.shape.i * dw_attr.weights.shape.h *
          dw_attr.weights.shape.w ≤ 144) ∧
       (conv_attr.weights.shape.o ≤ 32 ∧
        conv_attr.weights.shape.i * conv_attr.weights.shape.o ≤ 512)) := by
  simp only [IsDepthwiseConvPlus1x1ConvSupported, Bool.and_eq_true,
    beq_iff_eq, decide_eq_true_eq]
  constructor
  · rintro ⟨⟨⟨h1, h2⟩, h3⟩, h4⟩
    exact ⟨h1, by tauto, by tauto, by tauto⟩
  · rintro ⟨h1, h2, h3, h4⟩
    exact ⟨⟨⟨h1, by tauto⟩, by tauto⟩, by tauto⟩

/-- C8: for every destination tensor state, `GetGridSize` returns the
triple `(width * batch, height, 1)`. -/
theorem getGridSize_eq (dst : DstTensorDims) :
    GetGridSize dst = (dst.width * dst.batch, dst.height, 1) := rfl

/-- C10: `GenerateCode` registers the scalar kernel arguments with
`stride_x`/`stride_y` equal to the depthwise strides, `dilation_x`/
`dilation_y` equal to the depthwise dilations, and `padding_x`/`padding_y`
equal to the negation of the depthwise prepended padding. -/
theorem scalarArgs_eq (dw_attr : DepthwiseConvolution2DAttributes) :
    generateCodeScalarArgs dw_attr =
      [("stride_x", dw_attr.strides.w),
       ("padding_x", -dw_attr.padding.prepended.w),
       ("dilation_x", dw_attr.dilations.w),
       ("stride_y", dw_attr.strides.h),
       ("padding_y", -dw_attr.padding.prepended.h),
       ("dilation_y", dw_attr.dilations.h)] := rfl

/-- C3: for pointwise input channels matching the depthwise channel count,
the scalar element count of the packed buffer equals
`aligned(dw_ch) + kh*kw*aligned(dw_ch) + aligned(out_ch) +
(aligned(out_ch)/4)*(aligned(dw_ch)/4)*16` with `aligned` rounding up to
a multiple of 4. -/
theorem uploadWeightsData_length (dw_attr : DepthwiseConvolution2DAttributes)
    (conv_attr : Convolution2DAttributes)
    (hio : conv_attr.weights.shape.i = dw_attr.weights.shape.i) :
    (uploadWeightsData dw_attr conv_attr).length =
      alignByN dw_attr.weights.shape.i 4 +
        dw_attr.weights.shape.h * dw_attr.weights.shape.w *
          alignByN dw_attr.weights.shape.i 4 +
        alignByN conv_attr.weights.shape.o 4 +
        (alignByN conv_attr.weights.shape.o 4 / 4) *
          (alignByN dw_attr.weights.shape.i 4 / 4) * 16 := by
  rw [uploadWeightsData, List.length_append, List.length_append,
    List.length_append, dwBiasRegion_length, dwWeightsRegion_length,
    convBiasRegion_length, convWeightsRegion_length, hio]

/-- Witness for C3 at the small concrete pair `dwExS`/`convExS`:
2 depthwise channels, 1x1 kernel, 3 output channels give
4 + 4 + 4 + 16 = 28 packed scalars. -/
theorem uploadWeightsData_length_witness :
    convExS.weights.shape.i = dwExS.weights.shape.i ∧
      (uploadWeightsData dwExS convExS).length = 28 :=
  ⟨rfl, by rw [uploadWeightsData_length dwExS convExS rfl]; decide⟩

/-- C6: concrete scenario A — depthwise 3x3, stride 1, dilation 1,
padding 1, 8 input channels, pointwise 1x1 with 8 input / 16 output
channels — is eligible, and its packed buffer has exactly 224 scalar
elements. -/
theorem scenarioA_supported_and_length :
    IsDepthwiseConvPlus1x1ConvSupported dwExA convExA = true ∧
      (uploadWeightsData dwExA convExA).length = 224 := by
  constructor
  · decide
  · rw [uploadWeightsData, List.length_append, List.length_append,
      List.length_append, dwBiasRegion_length, dwWeightsRegion_length,
      convBiasRegion_length, convWeightsRegion_length]
    decide

/-- C5: `UploadWeights` equals the result of the single external
`CreateReadOnlyBuffer` call with any failure propagated unchanged
(`Except.map` leaves `error` untouched) and success mapped to the
registered `constants` object — so it fails exactly when the external
call fails, with no retry or fallback — and
`CreateDepthwiseConvPlus1x1Conv` returns exactly the status of
`UploadWeights`. -/
theorem uploadWeights_propagates {ε β : Type} (definition : OperationDef)
    (dw_attr : DepthwiseConvolution2DAttributes)
    (conv_attr : Convolution2DAttributes) (toHalf : ℚ → ℚ)
    (createReadOnlyBuffer : ℕ → List ℚ → Except ε β) :
    UploadWeights definition dw_attr conv_attr toHalf createReadOnlyBuffer =
      Except.map
        (fun buf => ⟨"constants", constantsDescriptor definition, buf⟩)
        (createReadOnlyBuffer (uploadByteSize definition dw_attr conv_attr)
          (uploadPayload definition toHalf dw_attr conv_attr)) ∧
    CreateDepthwiseConvPlus1x1Conv definition dw_attr conv_attr toHalf
        createReadOnlyBuffer =
      UploadWeights definition dw_attr conv_attr toHalf
        createReadOnlyBuffer := by
  constructor
  · unfold UploadWeights uploadByteSize uploadPayload constantsDescriptor
    have hlen : (uploadWeightsDataHalf toHalf dw_attr conv_attr).length =
        (uploadWeightsData dw_attr conv_attr).length := by
      rw [uploadWeightsDataHalf, List.length_map]
    cases hfp : definition.precision == CalculationsPrecision.F32 <;>
      simp only [hfp, if_true, if_false, Bool.false_eq_true,
        ite_true, ite_false, hlen] <;>
      cases hcb : createReadOnlyBuffer (2 * (uploadWeightsData dw_attr
        conv_attr).length) (uploadWeightsDataHalf toHalf dw_attr conv_attr) <;>
      cases hcb' : createReadOnlyBuffer (4 * (uploadWeightsData dw_attr
        conv_attr).length) (uploadWeightsData dw_attr conv_attr) <;>
      simp [hcb, hcb', Except.map]
  · unfold CreateDepthwiseConvPlus1x1Conv
    cases h : UploadWeights definition dw_attr conv_attr toHalf
        createReadOnlyBuffer <;> rfl

/-- C4: every packed-buffer element at an alignment-padding position —
a depthwise-bias index at or beyond the bias length, a depthwise-weight
lane beyond the channel count, a pointwise-bias index at or beyond the
bias length, or a pointwise-weight lane pair outside the true (input,
output) channel extents — is exactly zero, in both the full-precision
buffer and the reduced-precision buffer (for any half conversion that
preserves zero, as IEEE round-to-nearest does). -/
theorem upload_padding_zero (dw_attr : DepthwiseConvolution2DAttributes)
    (conv_attr : Convolution2DAttributes) (toHalf : ℚ → ℚ)
    (h0 : toHalf 0 = 0) :
    (∀ i : ℕ, i < alignByN dw_attr.weights.shape.i 4 → dw_attr.bias.v ≤ i →
      (uploadWeightsData dw_attr conv_attr)[i]? = some 0 ∧
      (uploadWeightsDataHalf toHalf dw_attr conv_attr)[i]? = some 0) ∧
    (∀ y x d i : ℕ, y < dw_attr.weights.shape.h →
      x < dw_attr.weights.shape.w →
      d < alignByN dw_attr.weights.shape.i 4 / 4 → i < 4 →
      dw_attr.weights.shape.i ≤ d * 4 + i →
      (uploadWeightsData dw_attr conv_attr)[alignByN dw_attr.weights.shape.i 4 +
        (((y * dw_attr.weights.shape.w + x) *
          (alignByN dw_attr.weights.shape.i 4 / 4) + d) * 4 + i)]? = some 0 ∧
      (uploadWeightsDataHalf toHalf dw_attr
        conv_attr)[alignByN dw_attr.weights.shape.i 4 +
        (((y * dw_attr.weights.shape.w + x) *
          (alignByN dw_attr.weights.shape.i 4 / 4) + d) * 4 + i)]? = some 0) ∧
    (∀ i : ℕ, i < alignByN conv_attr.weights.shape.o 4 →
      conv_attr.bias.v ≤ i →
      (uploadWeightsData dw_attr conv_attr)[alignByN dw_attr.weights.shape.i 4 +
        dw_attr.weights.shape.h * dw_attr.weights.shape.w *
          alignByN dw_attr.weights.shape.i 4 + i]? = some 0 ∧
      (uploadWeightsDataHalf toHalf dw_attr
        conv_attr)[alignByN dw_attr.weights.shape.i 4 +
        dw_attr.weights.shape.h * dw_attr.weights.shape.w *
          alignByN dw_attr.weights.shape.i 4 + i]? = some 0) ∧
    (∀ d s j i : ℕ, d < alignByN conv_attr.weights.shape.o 4 / 4 →
      s < alignByN conv_attr.weights.shape.i 4 / 4 → j < 4 → i < 4 →
      ¬(s * 4 + j < conv_attr.weights.shape.i ∧
        d * 4 + i < conv_attr.weights.shape.o) →
      (uploadWeightsData dw_attr conv_attr)[alignByN dw_attr.weights.shape.i 4 +
        dw_attr.weights.shape.h * dw_attr.weights.shape.w *
          alignByN dw_attr.weights.shape.i 4 +
        alignByN conv_attr.weights.shape.o 4 +
        (((d * (alignByN conv_attr.weights.shape.i 4 / 4) + s) * 4 + j) * 4 +
          i)]? = some 0 ∧
      (uploadWeightsDataHalf toHalf dw_attr
        conv_attr)[alignByN dw_attr.weights.shape.i 4 +
        dw_attr.weights.shape.h * dw_attr.weights.shape.w *
          alignByN dw_attr.weights.shape.i 4 +
        alignByN conv_attr.weights.shape.o 4 +
        (((d * (alignByN conv_attr.weights.shape.i 4 / 4) + s) * 4 + j) * 4 +
          i)]? = some 0) := by
  refine ⟨?_, ?_, ?_, ?_⟩
  · intro i hi hv
    have hfull : (uploadWeightsData dw_attr conv_attr)[i]? = some 0 := by
      rw [buf_getElem_r1 dw_attr conv_attr (by rw [dwBiasRegion_length]; omega),
        dwBiasRegion_getElem dw_attr hi, if_neg (by omega)]
    exact ⟨hfull, half_getElem_zero h0 hfull⟩
  · intro y x d i hy hx hd hi hch
    have hp : ((y * dw_attr.weights.shape.w + x) *
        (alignByN dw_attr.weights.shape.i 4 / 4) + d) * 4 + i <
        (dwWeightsRegion dw_attr).length := by
      rw [dwWeightsRegion_length]
      have e1 : dw_attr.weights.shape.w * y + x <
          dw_attr.weights.shape.w * dw_attr.weights.shape.h :=
        mul_add_lt_mul hy hx
      have e2 : (alignByN dw_attr.weights.shape.i 4 / 4) *
          (dw_attr.weights.shape.w * y + x) + d <
          (alignByN dw_attr.weights.shape.i 4 / 4) *
            (dw_attr.weights.shape.w * dw_attr.weights.shape.h) :=
        mul_add_lt_mul e1 hd
      have e3 := mul_add_lt_mul (c := 4) e2 hi
      have hA := alignByN_div_mul dw_attr.weights.shape.i
      calc ((y * dw_attr.weights.shape.w + x) *
            (alignByN dw_attr.weights.shape.i 4 / 4) + d) * 4 + i
          = 4 * ((alignByN dw_attr.weights.shape.i 4 / 4) *
              (dw_attr.weights.shape.w * y + x) + d) + i := by ring
        _ < 4 * ((alignByN dw_attr.weights.shape.i 4 / 4) *
              (dw_attr.weights.shape.w * dw_attr.weights.shape.h)) := e3
        _ = dw_attr.weights.shape.h * dw_attr.weights.shape.w *
              (alignByN dw_attr.weights.shape.i 4 / 4 * 4) := by ring
        _ = dw_attr.weights.shape.h * dw_attr.weights.shape.w *
              alignByN dw_attr.weights.shape.i 4 := by rw [hA]
    have hfull : (uploadWeightsData dw_attr
        conv_attr)[alignByN dw_attr.weights.shape.i 4 +
        (((y * dw_attr.weights.shape.w + x) *
          (alignByN dw_attr.weights.shape.i 4 / 4) + d) * 4 + i)]? =
        some 0 := by
      have key := buf_getElem_r2 dw_attr conv_attr hp
      rw [dwBiasRegion_length] at key
      rw [key, dwWeightsRegion_getElem dw_attr hy hx hd hi, if_neg (by omega)]
    exact ⟨hfull, half_getElem_zero h0 hfull⟩
  · intro i hi hv
    have hfull : (uploadWeightsData dw_attr
        conv_attr)[alignByN dw_attr.weights.shape.i 4 +
        dw_attr.weights.shape.h * dw_attr.weights.shape.w *
          alignByN dw_attr.weights.shape.i 4 + i]? = some 0 := by
      have hp3 : i < (convBiasRegion conv_attr).length := by
        rw [convBiasRegion_length]; omega
      have key := buf_getElem_r3 dw_attr conv_attr hp3
      rw [dwBiasRegion_length, dwWeightsRegion_length] at key
      rw [key, convBiasRegion_getElem conv_attr hi, if_neg (by omega)]
    exact ⟨hfull, half_getElem_zero h0 hfull⟩
  · intro d s j i hd hs hj hi hne
    have hfull : (uploadWeightsData dw_attr
        conv_attr)[alignByN dw_attr.weights.shape.i 4 +
        dw_attr.weights.shape.h * dw_attr.weights.shape.w *
          alignByN dw_attr.weights.shape.i 4 +
        alignByN conv_attr.weights.shape.o 4 +
        (((d * (alignByN conv_attr.weights.shape.i 4 / 4) + s) * 4 + j) * 4 +
          i)]? = some 0 := by
      have key := buf_getElem_r4 dw_attr conv_attr
        (((d * (alignByN conv_attr.weights.shape.i 4 / 4) + s) * 4 + j) * 4 + i)
      rw [dwBiasRegion_length, dwWeightsRegion_length,
        convBiasRegion_length] at key
      rw [key, convWeightsRegion_getElem conv_attr hd hs hj hi, if_neg hne]
    exact ⟨hfull, half_getElem_zero h0 hfull⟩

/-- Witness for C4: in the packed buffer of the small concrete pair
`dwExS`/`convExS` (2 depthwise channels, bias length 2), position 3 is
an alignment-padding position of the depthwise-bias region and holds
zero. -/
theorem upload_padding_zero_witness :
    (uploadWeightsData dwExS convExS)[3]? = some 0 :=
  ((upload_padding_zero dwExS convExS id rfl).1 3 (by decide) (by decide)).1

/-- C7: for every attribute set (with a nonempty kernel and a common
prelude that is itself no `if`, clamp or read statement), the generated
source contains exactly one `if` statement — the early-exit bounds check
— as its only control-flow branch; it contains manual clamp statements
if and only if the source storage type is `BUFFER` or `IMAGE_BUFFER`;
and for a 1x1 depthwise kernel with a non-buffer storage type it
contains exactly one source fetch per aligned intermediate-channel group
and no clamp statements. -/
theorem generateCode_control_flow (cd : String) (op_def : OperationDef)
    (dw_attr : DepthwiseConvolution2DAttributes) (rd : ℕ)
    (hcd1 : isIfChunk cd = false) (hcd2 : isClampChunk cd = false)
    (hcd3 : isReadChunk cd = false) (hkh : 1 ≤ dw_attr.weights.shape.h) :
    List.countP isIfChunk (GenerateCode cd op_def dw_attr rd).1 = 1 ∧
    (List.countP isClampChunk (GenerateCode cd op_def dw_attr rd).1 ≠ 0 ↔
      (op_def.srcStorageType = TensorStorageType.BUFFER ∨
       op_def.srcStorageType = TensorStorageType.IMAGE_BUFFER)) ∧
    (dw_attr.weights.shape.h = 1 → dw_attr.weights.shape.w = 1 →
      op_def.srcStorageType ≠ TensorStorageType.BUFFER →
      op_def.srcStorageType ≠ TensorStorageType.IMAGE_BUFFER →
      List.countP isReadChunk (GenerateCode cd op_def dw_attr rd).1 =
        divideRoundUp dw_attr.weights.shape.i 4 ∧
      List.countP isClampChunk (GenerateCode cd op_def dw_attr rd).1 = 0) := by
  have hiff : (op_def.srcStorageType == TensorStorageType.BUFFER ||
      op_def.srcStorageType == TensorStorageType.IMAGE_BUFFER) = true ↔
      (op_def.srcStorageType = TensorStorageType.BUFFER ∨
       op_def.srcStorageType = TensorStorageType.IMAGE_BUFFER) := by
    cases op_def.srcStorageType <;> decide
  refine ⟨countP_isIf cd op_def dw_attr rd hcd1, ?_, ?_⟩
  · rw [countP_isClamp cd op_def dw_attr rd hcd2]
    cases hmc : op_def.srcStorageType == TensorStorageType.BUFFER ||
        op_def.srcStorageType == TensorStorageType.IMAGE_BUFFER
    · rw [hmc] at hiff
      simp only [Bool.cond_false]
      constructor
      · intro h; exact absurd rfl h
      · intro h
        have := hiff.mpr h
        exact Bool.noConfusion this
    · rw [hmc] at hiff
      simp only [Bool.cond_true]
      have hpos : 0 < dw_attr.weights.shape.h * (1 + dw_attr.weights.shape.w) :=
        Nat.mul_pos (by omega) (by omega)
      constructor
      · intro _; exact hiff.mp rfl
      · intro _; omega
  · intro h1 hw1 hnb1 hnb2
    have hmc : (op_def.srcStorageType == TensorStorageType.BUFFER ||
        op_def.srcStorageType == TensorStorageType.IMAGE_BUFFER) = false := by
      cases ht : op_def.srcStorageType <;>
        first
          | decide
          | exact absurd ht hnb1
          | exact absurd ht hnb2
    constructor
    · rw [countP_isRead cd op_def dw_attr rd hcd3, h1, hw1]
      simp
    · rw [countP_isClamp cd op_def dw_attr rd hcd2, hmc]
      rfl

/-- Witness for C7 at the concrete instance: empty prelude, texture
storage, 1x1 depthwise kernel with 2 channels (one aligned group): one
bounds check, one source fetch, no clamps. -/
theorem generateCode_control_flow_witness :
    List.countP isIfChunk (GenerateCode "" opDefEx dwExS 1).1 = 1 ∧
    List.countP isReadChunk (GenerateCode "" opDefEx dwExS 1).1 = 1 ∧
    List.countP isClampChunk (GenerateCode "" opDefEx dwExS 1).1 = 0 := by
  have h := generateCode_control_flow "" opDefEx dwExS 1 (by decide)
    (by decide) (by decide) (by decide)
  have h3 := h.2.2 rfl rfl (by decide) (by decide)
  exact ⟨h.1, h3.1, h3.2⟩

/-- C1 (counterexample): for the concrete pair `dwEx9`/`convEx9` — 4
depthwise channels but 8 pointwise input channels — the sequence of
constant-buffer indices referenced by the generated code (with
`result_depth` as passed by the constructor) is `0..6`, while the packed
buffer holds `44 / 4 = 11` vector elements, so the referenced sequence
is not `0, 1, ..., N-1` with `N` the buffer's vector element count. -/
theorem generated_indices_mismatch :
    ¬ ((GenerateCode "" opDefEx dwEx9
        (divideRoundUp convEx9.weights.shape.o 4)).2 =
      List.range ((uploadWeightsData dwEx9 convEx9).length / 4)) := by
  decide

/-- C1 (amended): when the pointwise input channel-group count matches
the depthwise channel-group count (as the fusion construction assumes),
the sequence of constant-buffer indices referenced by the generated code
— with `result_depth = DivideRoundUp(conv_out_channels, 4)` as passed by
the constructor — is exactly `0, 1, ..., N-1` in emission order, where
`N` is the scalar element count of the packed buffer divided by 4. -/
theorem generated_indices_match_buffer (cd : String)
    (op_def : OperationDef) (dw_attr : DepthwiseConvolution2DAttributes)
    (conv_attr : Convolution2DAttributes)
    (hI : divideRoundUp conv_attr.weights.shape.i 4 =
      divideRoundUp dw_attr.weights.shape.i 4) :
    (GenerateCode cd op_def dw_attr
        (divideRoundUp conv_attr.weights.shape.o 4)).2 =
      List.range ((uploadWeightsData dw_attr conv_attr).length / 4) := by
  rw [generateCode_indices]
  congr 1
  have hlen : (uploadWeightsData dw_attr conv_attr).length =
      alignByN dw_attr.weights.shape.i 4 +
        dw_attr.weights.shape.h * dw_attr.weights.shape.w *
          alignByN dw_attr.weights.shape.i 4 +
        alignByN conv_attr.weights.shape.o 4 +
        (alignByN conv_attr.weights.shape.o 4 / 4) *
          (alignByN conv_attr.weights.shape.i 4 / 4) * 16 := by
    rw [uploadWeightsData, List.length_append, List.length_append,
      List.length_append, dwBiasRegion_length, dwWeightsRegion_length,
      convBiasRegion_length, convWeightsRegion_length]
  rw [hlen, alignByN_div, alignByN_div, hI]
  simp only [alignByN]
  have h4 : divideRoundUp dw_attr.weights.shape.i 4 * 4 +
      dw_attr.weights.shape.h * dw_attr.weights.shape.w *
        (divideRoundUp dw_attr.weights.shape.i 4 * 4) +
      divideRoundUp conv_attr.weights.shape.o 4 * 4 +
      divideRoundUp conv_attr.weights.shape.o 4 *
        divideRoundUp dw_attr.weights.shape.i 4 * 16 =
      4 * (divideRoundUp dw_attr.weights.shape.i 4 +
        dw_attr.weights.shape.h * dw_attr.weights.shape.w *
          divideRoundUp dw_attr.weights.shape.i 4 +
        divideRoundUp conv_attr.weights.shape.o 4 +
        divideRoundUp conv_attr.weights.shape.o 4 *
          divideRoundUp dw_attr.weights.shape.i 4 * 4) := by ring
  rw [h4, Nat.mul_div_cancel_left _ (by norm_num)]

/-- Witness for the amended C1 at the concrete matching pair
`dwExS`/`convExS` (both with 2 channels on the shared edge). -/
theorem generated_indices_match_buffer_witness :
    (GenerateCode "" opDefEx dwExS
        (divideRoundUp convExS.weights.shape.o 4)).2 =
      List.range ((uploadWeightsData dwExS convExS).length / 4) :=
  generated_indices_match_buffer "" opDefEx dwExS convExS rfl

/-- C9: `IsDepthwiseConvPlus1x1ConvSupported` never compares the pointwise
input channel count with the depthwise channel count: the concrete pair
`dwEx9`/`convEx9` (4 depthwise channels, 8 pointwise input channels, all
hard and soft bounds met) is accepted although the two counts differ. -/
theorem supported_ignores_channel_match :
    IsDepthwiseConvPlus1x1ConvSupported dwEx9 convEx9 = true ∧
      convEx9.weights.shape.i ≠ dwEx9.weights.shape.i := by
  constructor
  · decide
  · decide

end DwConvPlus1x1
